import Mathlib

/-!
Shallow embedding of the guest-stay-account service
(event-driven-io/emmett-starter-postgresql).

Money amounts (TypeScript `number`) are modelled as `Rat`; wall-clock
instants (`Date`) as a record of UTC calendar fields plus the millisecond
offset inside the day.  Fallible TypeScript code (assertions that throw,
parsers) is modelled with `Option`; the domain decision functions return
`Except` to distinguish a business-rule failure from a successful decision.
-/

namespace GuestStay

/-- UTC instant: calendar day fields plus milliseconds within the day.
`formatDateToUtcYYYYMMDD` only reads the calendar fields. -/
structure DateTime where
  year : Nat
  month : Nat
  day : Nat
  msOfDay : Nat
deriving DecidableEq, Repr

/-- Payload of `GuestCheckedIn` (fields read by the projections). -/
structure GuestCheckedInData where
  guestStayAccountId : String
  guestId : String
  roomId : String
  checkedInAt : DateTime
deriving DecidableEq, Repr

/-- Payload of `ChargeRecorded`. -/
structure ChargeRecordedData where
  chargeId : String
  amount : Rat
deriving DecidableEq, Repr

/-- Payload of `PaymentRecorded`. -/
structure PaymentRecordedData where
  paymentId : String
  amount : Rat
deriving DecidableEq, Repr

/-- Payload of `GuestCheckedOut`. -/
structure GuestCheckedOutData where
  checkedOutAt : DateTime
deriving DecidableEq, Repr

/-- Payload of `GuestCheckoutFailed`. -/
structure GuestCheckoutFailedData where
  reason : String
deriving DecidableEq, Repr

/-- The five domain events of a guest-stay-account stream. -/
inductive GuestStayAccountEvent where
  | GuestCheckedIn (data : GuestCheckedInData)
  | ChargeRecorded (data : ChargeRecordedData)
  | PaymentRecorded (data : PaymentRecordedData)
  | GuestCheckedOut (data : GuestCheckedOutData)
  | GuestCheckoutFailed (data : GuestCheckoutFailedData)
deriving DecidableEq, Repr

/-- One `{id, amount}` entry of the read model's `transactions` list. -/
structure Transaction where
  id : String
  amount : Rat
deriving DecidableEq, Repr

/-- The read model's `status` field of an existing document
(`'CheckedIn' | 'CheckedOut'` in `guestStayDetails.ts`). -/
inductive DocStatus where
  | CheckedIn
  | CheckedOut
deriving DecidableEq, Repr

/-- The `CheckedIn` document shape of `guestStayDetails.ts` (an existing
read-model document; its `status` field may be `CheckedIn` or `CheckedOut`).
The optional TS fields `checkedOutAt?` and `_version?` become `Option`. -/
structure GuestStayDoc where
  _id : String
  guestId : String
  roomId : String
  status : DocStatus
  balance : Rat
  transactionsCount : Nat
  transactions : List Transaction
  checkedInAt : DateTime
  checkedOutAt : Option DateTime := none
  _version : Option Nat := none
deriving DecidableEq, Repr

/-- `GuestStayDetails = NotExisting | CheckedIn` from `guestStayDetails.ts`. -/
inductive GuestStayDetails where
  | notExisting
  | existing (doc : GuestStayDoc)
deriving DecidableEq, Repr

/-- The TS `status` string of a `GuestStayDetails` value
(`NotExisting`, `CheckedIn` or `CheckedOut`). -/
def statusOf : GuestStayDetails → String
  | .notExisting => "NotExisting"
  | .existing doc =>
    match doc.status with
    | .CheckedIn => "CheckedIn"
    | .CheckedOut => "CheckedOut"

/-- `initialState` of the read model (`guestStayDetails.ts`). -/
def initialState (_ : Unit) : GuestStayDetails := .notExisting

/-- The read-side `evolve` of `guestStayDetails.ts`, case for case:
`GuestCheckedIn` creates the document only from `NotExisting`;
`ChargeRecorded` / `PaymentRecorded` / `GuestCheckedOut` apply only while
`status === 'CheckedIn'`; `GuestCheckoutFailed` returns the state; every
other case returns the state unchanged. -/
def evolve (state : GuestStayDetails) (e : GuestStayAccountEvent) : GuestStayDetails :=
  match e with
  | .GuestCheckedIn event =>
    match state with
    | .notExisting =>
      .existing
        { _id := event.guestStayAccountId
          guestId := event.guestId
          roomId := event.roomId
          status := .CheckedIn
          balance := 0
          transactionsCount := 0
          transactions := []
          checkedInAt := event.checkedInAt }
    | .existing _ => state
  | .ChargeRecorded event =>
    match state with
    | .existing doc =>
      if doc.status = .CheckedIn then
        .existing
          { doc with
            balance := doc.balance - event.amount
            transactionsCount := doc.transactionsCount + 1
            transactions := doc.transactions ++ [⟨event.chargeId, event.amount⟩] }
      else state
    | .notExisting => state
  | .PaymentRecorded event =>
    match state with
    | .existing doc =>
      if doc.status = .CheckedIn then
        .existing
          { doc with
            balance := doc.balance + event.amount
            transactionsCount := doc.transactionsCount + 1
            transactions := doc.transactions ++ [⟨event.paymentId, event.amount⟩] }
      else state
    | .notExisting => state
  | .GuestCheckedOut event =>
    match state with
    | .existing doc =>
      if doc.status = .CheckedIn then
        .existing { doc with status := .CheckedOut, checkedOutAt := some event.checkedOutAt }
      else state
    | .notExisting => state
  | .GuestCheckoutFailed _ => state

/-- Modelled from the spec: the write-side account state of §3
(`guestStayAccount.ts` is not among the sources) — a tagged variant
`NotExisting`, `Opened {guestId, roomId, checkedInAt, balance}`,
`CheckedOut {…Opened fields, checkedOutAt}`. -/
inductive GuestStayAccount where
  | NotExisting
  | Opened (guestId roomId : String) (checkedInAt : DateTime) (balance : Rat)
  | CheckedOut (guestId roomId : String) (checkedInAt : DateTime) (balance : Rat)
      (checkedOutAt : DateTime)
deriving DecidableEq, Repr

/-- Modelled from the spec: the write-side `evolve` of §4.1
(`guestStayAccount.ts` is not among the sources) — pure fold, one case per
event kind; an event not applicable to the current variant leaves the state
unchanged; `GuestCheckoutFailed` leaves account state unchanged;
balance accumulates `-charge` and `+payment`. -/
def evolveAccount (state : GuestStayAccount) (e : GuestStayAccountEvent) : GuestStayAccount :=
  match e with
  | .GuestCheckedIn event =>
    match state with
    | .NotExisting => .Opened event.guestId event.roomId event.checkedInAt 0
    | _ => state
  | .ChargeRecorded event =>
    match state with
    | .Opened g r t b => .Opened g r t (b - event.amount)
    | _ => state
  | .PaymentRecorded event =>
    match state with
    | .Opened g r t b => .Opened g r t (b + event.amount)
    | _ => state
  | .GuestCheckedOut event =>
    match state with
    | .Opened g r t b => .CheckedOut g r t b event.checkedOutAt
    | _ => state
  | .GuestCheckoutFailed _ => state

/-- Modelled from the spec: the `CheckOut` decide function of §4.1
(`businessLogic.ts` is not among the sources) — if `NotExisting`, fail
("account doesn't exist"); if `CheckedOut`, emit no events (idempotent
no-op); if `Opened` and balance ≠ 0, emit `GuestCheckoutFailed` with reason
"balance not settled" as a successful decision; if `Opened` and balance = 0,
emit `GuestCheckedOut`. -/
def checkOut (now : DateTime) (state : GuestStayAccount) :
    Except String (List GuestStayAccountEvent) :=
  match state with
  | .NotExisting => .error "Guest account does not exist"
  | .CheckedOut _ _ _ _ _ => .ok []
  | .Opened _ _ _ balance =>
    if balance = 0 then .ok [.GuestCheckedOut ⟨now⟩]
    else .ok [.GuestCheckoutFailed ⟨"balance not settled"⟩]

/-- Big-endian, zero-padded decimal digit expansion of `n` to exactly
`len` characters (the digit list of `n mod 10^len`). -/
def padDigits : Nat → Nat → List Char
  | 0, _ => []
  | len + 1, n => padDigits len (n / 10) ++ [Nat.digitChar (n % 10)]

/-- Decimal reading of a character list with accumulator, failing on the
first non-digit character. -/
def readDigits : List Char → Nat → Option Nat
  | [], acc => some acc
  | c :: cs, acc =>
    if c.isDigit then readDigits cs (acc * 10 + (c.toNat - 48)) else none

/-- Modelled from the spec: `formatDateToUtcYYYYMMDD` (an emmett library
helper, not among the sources) — the stay date's stable external text
encoding: four-digit year, two-digit month, two-digit day, from the UTC
calendar fields only. -/
def formatDateToUtcYYYYMMDD (d : DateTime) : String :=
  String.mk (padDigits 4 d.year ++ padDigits 2 d.month ++ padDigits 2 d.day)

/-- Modelled from the spec: `parseDateFromUtcYYYYMMDD` (an emmett library
helper, not among the sources) — decodes the eight-character
YYYYMMDD text back to the calendar day, at UTC midnight. -/
def parseDateFromUtcYYYYMMDD (s : String) : Option DateTime :=
  if s.data.length = 8 then
    match readDigits (s.data.take 4) 0, readDigits ((s.data.drop 4).take 2) 0,
        readDigits (s.data.drop 6) 0 with
    | some y, some m, some d => some ⟨y, m, d, 0⟩
    | _, _, _ => none
  else none

/-- Modelled from the spec: `toGuestStayAccountId` of `guestStayAccount.ts`
(not among the sources) — the deterministic account key derived from
(guestId, roomId, stay date at day granularity), used as the stream key
and the read-model document key. -/
def toGuestStayAccountId (guestId roomId : String) (date : DateTime) : String :=
  "guest_stay_account-" ++ guestId ++ ":" ++ roomId ++ ":" ++
    formatDateToUtcYYYYMMDD date

/-- `assertNotEmptyString` applied to a possibly absent request parameter:
the assertion throws (here: `none`) on a missing or empty string and
otherwise returns the string. -/
def assertNotEmptyString : Option String → Option String
  | none => none
  | some s => if s = "" then none else some s

/-- The `:guestId/:roomId/:checkInDate` path parameters, each possibly
absent (`Partial` in the TS request types). -/
structure PathParams where
  guestId : Option String := none
  roomId : Option String := none
  checkInDate : Option String := none

/-- `parseGuestStayAccountId` of `api.ts`: asserts the three path
parameters non-empty, parses the check-in date, and derives the account id. -/
def parseGuestStayAccountId (p : PathParams) : Option String := do
  let g ← assertNotEmptyString p.guestId
  let r ← assertNotEmptyString p.roomId
  let cd ← assertNotEmptyString p.checkInDate
  let date ← parseDateFromUtcYYYYMMDD cd
  pure (toGuestStayAccountId g r date)

/-- A JavaScript `number` at the granularity the validation needs:
NaN, the two infinities, or a finite value (modelled as a rational). -/
inductive JSNumber where
  | nan
  | posInf
  | negInf
  | finite (q : Rat)
deriving DecidableEq, Repr

/-- `Number(request.body.amount)`: an absent body field (`undefined`)
converts to NaN; a number converts to itself. -/
def toNumber : Option JSNumber → JSNumber
  | none => .nan
  | some v => v

/-- Modelled from the spec: `assertPositiveNumber` (an emmett library
helper, not among the sources) — monetary amounts must be positive finite
numbers; the assertion throws (here: `none`) otherwise. -/
def assertPositiveNumber : JSNumber → Option Rat
  | .finite q => if 0 < q then some q else none
  | _ => none

/-- The `RecordCharge` command data built by the Record Charge route. -/
structure RecordChargeCmd where
  chargeId : String
  guestStayAccountId : String
  amount : Rat
deriving DecidableEq, Repr

/-- The `RecordPayment` command data built by the Record Payment route. -/
structure RecordPaymentCmd where
  paymentId : String
  guestStayAccountId : String
  amount : Rat
deriving DecidableEq, Repr

/-- The Record Charge route of `api.ts` up to the command handler call:
parses the account id from the path, validates the body amount with
`assertPositiveNumber (Number (request.body.amount))`, and yields the
`RecordCharge` command that is passed to `handle`/`decide`; `none` means
the request was rejected before the command handler was invoked. -/
def recordChargeRoute (p : PathParams) (bodyAmount : Option JSNumber)
    (generatedId : String) : Option RecordChargeCmd := do
  let accountId ← parseGuestStayAccountId p
  let amount ← assertPositiveNumber (toNumber bodyAmount)
  pure ⟨generatedId, accountId, amount⟩

/-- The Record Payment route of `api.ts` up to the command handler call,
symmetric to the Record Charge route. -/
def recordPaymentRoute (p : PathParams) (bodyAmount : Option JSNumber)
    (generatedId : String) : Option RecordPaymentCmd := do
  let accountId ← parseGuestStayAccountId p
  let amount ← assertPositiveNumber (toNumber bodyAmount)
  pure ⟨generatedId, accountId, amount⟩

/-- The `CheckIn` command data built by the Check In route. -/
structure CheckInCmd where
  guestId : String
  roomId : String
  now : DateTime
deriving DecidableEq, Repr

/-- Response of the Check In route. -/
inductive CheckInResponse where
  | forbidden
  | created (url : String)
deriving DecidableEq, Repr

/-- Observable outcome of one Check In request: the HTTP response plus the
stream id and command the route passed to the command handler (`none` when
the handler was never invoked, so nothing was appended and no read-model
document was created). -/
structure CheckInEffect where
  response : CheckInResponse
  handlerCall : Option (String × CheckInCmd)
deriving DecidableEq, Repr

/-- The Check In route of `api.ts`: asserts the path parameters non-empty,
asks `doesGuestStayExist` and returns `Forbidden` when it is false — before
the account id or the `CheckIn` command is constructed and before the
command handler runs — otherwise derives the account id from
(guestId, roomId, now), hands the command to the handler, and answers
`Created` with the period URL for the formatted day. -/
def checkInRoute (guestId roomId : Option String) (stayExists : Bool)
    (now : DateTime) : Option CheckInEffect := do
  let g ← assertNotEmptyString guestId
  let r ← assertNotEmptyString roomId
  if !stayExists then
    pure ⟨.forbidden, none⟩
  else
    let accountId := toGuestStayAccountId g r now
    let cmd : CheckInCmd := ⟨g, r, now⟩
    pure ⟨.created ("/guests/" ++ g ++ "/stays/" ++ r ++ "/periods/" ++
      formatDateToUtcYYYYMMDD now), some (accountId, cmd)⟩

/-- Response of the CheckOut Guest route. -/
inductive CheckOutResponse where
  | noContent
  | forbidden (problemDetails : String)
deriving DecidableEq, Repr

/-- The response mapping of the CheckOut Guest route of `api.ts`: given the
`newEvents` returned by the command handler, answer `NoContent` when the
list is empty or its first event is not `GuestCheckoutFailed`, otherwise
`Forbidden` carrying that event's reason as problem details. -/
def checkOutHttpResponse (newEvents : List GuestStayAccountEvent) : CheckOutResponse :=
  match newEvents with
  | [] => .noContent
  | .GuestCheckoutFailed d :: _ => .forbidden d.reason
  | _ :: _ => .noContent

/-- The read-model document with the `_version` field removed, the body
shape the details route answers with. -/
structure GuestStayDocBody where
  _id : String
  guestId : String
  roomId : String
  status : DocStatus
  balance : Rat
  transactionsCount : Nat
  transactions : List Transaction
  checkedInAt : DateTime
  checkedOutAt : Option DateTime
deriving DecidableEq, Repr

/-- `const { _version, ...document } = result`: every field but `_version`. -/
def stripVersion (doc : GuestStayDoc) : GuestStayDocBody :=
  ⟨doc._id, doc.guestId, doc.roomId, doc.status, doc.balance,
    doc.transactionsCount, doc.transactions, doc.checkedInAt, doc.checkedOutAt⟩

/-- The weak entity tag derived from a document version
(`toWeakETag` of emmett-expressjs). -/
def toWeakETag (v : Option Nat) : String :=
  "W/\x22" ++ (match v with | some n => toString n | none => "undefined") ++ "\x22"

/-- Response of the Get Guest Stay Account Details route. -/
inductive DetailsResponse where
  | notFound
  | ok (body : GuestStayDocBody) (eTag : String)
deriving DecidableEq, Repr

/-- The Get Guest Stay Account Details route of `api.ts` after the
`getGuestStayDetails` lookup: its input is only the projected document
found by id (`none` when absent) — the event log is never replayed —
and it answers `NotFound` when the document is absent or its status is not
`CheckedIn`, otherwise `OK` with the document minus `_version` as body and
the weak ETag of `_version`. -/
def getDetailsRoute (result : Option GuestStayDetails) : DetailsResponse :=
  match result with
  | none => .notFound
  | some .notExisting => .notFound
  | some (.existing doc) =>
    if doc.status = .CheckedIn then
      .ok (stripVersion doc) (toWeakETag doc._version)
    else .notFound

/-- Outcome of one load-decide-append cycle of the command handler:
either the append committed a result, or the optimistic-concurrency check
rejected it because another writer advanced the stream. -/
inductive CycleOutcome (α : Type) where
  | committed (result : α)
  | conflict
deriving DecidableEq, Repr

/-- Failure surfaced by the command handler to the caller. -/
inductive HandleFailure where
  | concurrencyConflict
deriving DecidableEq, Repr

/-- Modelled from the spec: the bounded retry loop of the Command Handler
(§4.2; `CommandHandler` is an emmett library import, not among the
sources) — on a concurrency conflict the whole load-decide-append cycle is
retried from the start; `cycle i` is the outcome of the i-th cycle; the
remaining-attempts counter decreases on every retry and a distinct conflict
failure is surfaced when it reaches zero. -/
def retryLoop {α : Type} (cycle : Nat → CycleOutcome α) :
    Nat → Nat → Except HandleFailure α
  | _, 0 => .error .concurrencyConflict
  | i, remaining + 1 =>
    match cycle i with
    | .committed r => .ok r
    | .conflict => retryLoop cycle (i + 1) remaining

/-- Modelled from the spec: the Command Handler's `handle` entry point with
a fixed maximum number of attempts — runs the load-decide-append cycle,
retrying on concurrency conflicts at most `maxAttempts` times in total. -/
def handleCommand {α : Type} (maxAttempts : Nat)
    (cycle : Nat → CycleOutcome α) : Except HandleFailure α :=
  retryLoop cycle 0 maxAttempts

/-- One transaction recorded while checked in: a charge or a payment,
with its generated id and amount.  A list of these is an arbitrary
interleaving of charges and payments. -/
inductive Txn where
  | charge (id : String) (amount : Rat)
  | payment (id : String) (amount : Rat)
deriving DecidableEq, Repr

/-- The domain event a transaction appends to the stream. -/
def txnEvent : Txn → GuestStayAccountEvent
  | .charge i a => .ChargeRecorded ⟨i, a⟩
  | .payment i a => .PaymentRecorded ⟨i, a⟩

/-- The `{id, amount}` entry the read model records for a transaction. -/
def txnEntry : Txn → Transaction
  | .charge i a => ⟨i, a⟩
  | .payment i a => ⟨i, a⟩

/-- Sum of the charge amounts of a transaction list. -/
def chargeSum (ts : List Txn) : Rat :=
  (ts.map fun t => match t with | .charge _ a => a | .payment _ _ => 0).sum

/-- Sum of the payment amounts of a transaction list. -/
def paymentSum (ts : List Txn) : Rat :=
  (ts.map fun t => match t with | .charge _ _ => 0 | .payment _ a => a).sum

/-- Folding any interleaving of charge and payment events over a document
whose status is `CheckedIn` accumulates balance, count and the ordered
transaction entries, and touches nothing else. -/
lemma foldl_evolve_txns (ts : List Txn) :
    ∀ doc : GuestStayDoc, doc.status = .CheckedIn →
      List.foldl evolve (.existing doc) (ts.map txnEvent) =
        .existing
          { doc with
            balance := doc.balance + (paymentSum ts - chargeSum ts)
            transactionsCount := doc.transactionsCount + ts.length
            transactions := doc.transactions ++ ts.map txnEntry } := by
  induction ts with
  | nil =>
    intro doc _
    simp [paymentSum, chargeSum]
  | cons t ts ih =>
    intro doc hst
    cases t with
    | charge i a =>
      simp only [List.map_cons, List.foldl_cons, txnEvent, evolve, hst, if_pos]
      rw [ih _ (by simp [hst])]
      simp only [GuestStayDetails.existing.injEq]
      simp [paymentSum, chargeSum, txnEntry, List.append_assoc]
      constructor
      · ring
      · omega
    | payment i a =>
      simp only [List.map_cons, List.foldl_cons, txnEvent, evolve, hst, if_pos]
      rw [ih _ (by simp [hst])]
      simp only [GuestStayDetails.existing.injEq]
      simp [paymentSum, chargeSum, txnEntry, List.append_assoc]
      constructor
      · ring
      · omega

/-- Claim C2: folding the read-side `evolve` from the `NotExisting` initial
state over a `GuestCheckedIn` event followed by any interleaving of charge
events (amounts c1..cn) and payment events (amounts p1..pm) yields a
document with status `CheckedIn`, balance Σp − Σc (so balance 0 and empty
transactions immediately after check-in), `transactionsCount` n + m, the
n + m `{id, amount}` entries in event order, and `checkedInAt` equal to the
check-in event's timestamp. -/
theorem projection_after_checkin_and_txns (ci : GuestCheckedInData) (ts : List Txn) :
    List.foldl evolve (initialState ()) (.GuestCheckedIn ci :: ts.map txnEvent) =
      .existing
        { _id := ci.guestStayAccountId
          guestId := ci.guestId
          roomId := ci.roomId
          status := .CheckedIn
          balance := paymentSum ts - chargeSum ts
          transactionsCount := ts.length
          transactions := ts.map txnEntry
          checkedInAt := ci.checkedInAt
          checkedOutAt := none
          _version := none } := by
  rw [List.foldl_cons]
  have h0 : evolve (initialState ()) (.GuestCheckedIn ci) =
      .existing
        { _id := ci.guestStayAccountId
          guestId := ci.guestId
          roomId := ci.roomId
          status := .CheckedIn
          balance := 0
          transactionsCount := 0
          transactions := []
          checkedInAt := ci.checkedInAt
          checkedOutAt := none
          _version := none } := rfl
  rw [h0, foldl_evolve_txns ts _ rfl]
  simp

/-- Claim C5: the read-side `evolve` is a pure total Lean function (it
returns a state for every state and event and can raise no error); every
event not applicable to the current state variant — `GuestCheckedIn` when a
document already exists; `ChargeRecorded`, `PaymentRecorded` or
`GuestCheckedOut` when the status is not `CheckedIn` — returns the state
unchanged, and `GuestCheckoutFailed` leaves the state, hence every field of
the document, unchanged in every state. -/
theorem evolve_total_and_defensive (s : GuestStayDetails)
    (ci : GuestCheckedInData) (c : ChargeRecordedData) (p : PaymentRecordedData)
    (o : GuestCheckedOutData) (f : GuestCheckoutFailedData) :
    (s ≠ .notExisting → evolve s (.GuestCheckedIn ci) = s) ∧
    (statusOf s ≠ "CheckedIn" →
      evolve s (.ChargeRecorded c) = s ∧ evolve s (.PaymentRecorded p) = s ∧
        evolve s (.GuestCheckedOut o) = s) ∧
    evolve s (.GuestCheckoutFailed f) = s := by
  cases s with
  | notExisting =>
    exact ⟨fun h => absurd rfl h, fun _ => ⟨rfl, rfl, rfl⟩, rfl⟩
  | existing doc =>
    refine ⟨fun _ => rfl, fun h => ?_, rfl⟩
    cases hst : doc.status with
    | CheckedIn => exact absurd (by simp [statusOf, hst]) h
    | CheckedOut => exact ⟨by simp [evolve, hst], by simp [evolve, hst], by simp [evolve, hst]⟩

/-- Witness for claim C5 at a concrete state and concrete events. -/
theorem evolve_total_and_defensive_witness :
    evolve .notExisting (.ChargeRecorded ⟨"charge-1", 5⟩) = .notExisting ∧
      evolve .notExisting (.GuestCheckoutFailed ⟨"balance not settled"⟩) = .notExisting :=
  ⟨((evolve_total_and_defensive .notExisting ⟨"a", "g", "r", ⟨2025, 1, 2, 0⟩⟩
      ⟨"charge-1", 5⟩ ⟨"payment-1", 5⟩ ⟨⟨2025, 1, 3, 0⟩⟩
      ⟨"balance not settled"⟩).2.1 (by decide)).1,
    (evolve_total_and_defensive .notExisting ⟨"a", "g", "r", ⟨2025, 1, 2, 0⟩⟩
      ⟨"charge-1", 5⟩ ⟨"payment-1", 5⟩ ⟨⟨2025, 1, 3, 0⟩⟩
      ⟨"balance not settled"⟩).2.2⟩

/-- Claim C6: starting from any existing document (any state other than
`NotExisting`), the read-side `evolve` always returns an existing document
(a created document is never deleted); the fields `_id`, `guestId`,
`roomId` and `checkedInAt` are unchanged by every event; and the only
status change any event can cause is from `CheckedIn` to `CheckedOut`. -/
theorem evolve_existing_preserved (doc : GuestStayDoc) (e : GuestStayAccountEvent) :
    ∃ doc' : GuestStayDoc,
      evolve (.existing doc) e = .existing doc' ∧
      doc'._id = doc._id ∧ doc'.guestId = doc.guestId ∧ doc'.roomId = doc.roomId ∧
      doc'.checkedInAt = doc.checkedInAt ∧
      (doc'.status = doc.status ∨ (doc.status = .CheckedIn ∧ doc'.status = .CheckedOut)) := by
  cases e with
  | GuestCheckedIn ci =>
    exact ⟨doc, rfl, rfl, rfl, rfl, rfl, Or.inl rfl⟩
  | ChargeRecorded c =>
    by_cases h : doc.status = .CheckedIn
    · exact ⟨{ doc with
          balance := doc.balance - c.amount
          transactionsCount := doc.transactionsCount + 1
          transactions := doc.transactions ++ [⟨c.chargeId, c.amount⟩] },
        by simp [evolve, h], rfl, rfl, rfl, rfl, Or.inl rfl⟩
    · exact ⟨doc, by simp [evolve, h], rfl, rfl, rfl, rfl, Or.inl rfl⟩
  | PaymentRecorded p =>
    by_cases h : doc.status = .CheckedIn
    · exact ⟨{ doc with
          balance := doc.balance + p.amount
          transactionsCount := doc.transactionsCount + 1
          transactions := doc.transactions ++ [⟨p.paymentId, p.amount⟩] },
        by simp [evolve, h], rfl, rfl, rfl, rfl, Or.inl rfl⟩
    · exact ⟨doc, by simp [evolve, h], rfl, rfl, rfl, rfl, Or.inl rfl⟩
  | GuestCheckedOut o =>
    by_cases h : doc.status = .CheckedIn
    · exact ⟨{ doc with status := .CheckedOut, checkedOutAt := some o.checkedOutAt },
        by simp [evolve, h], rfl, rfl, rfl, rfl, Or.inr ⟨h, rfl⟩⟩
    · exact ⟨doc, by simp [evolve, h], rfl, rfl, rfl, rfl, Or.inl rfl⟩
  | GuestCheckoutFailed f =>
    exact ⟨doc, rfl, rfl, rfl, rfl, rfl, Or.inl rfl⟩

/-- Claim C1: the check-out decision emits `GuestCheckedOut` iff the
account is `Opened` with balance exactly 0; if `Opened` with balance ≠ 0 it
successfully emits `GuestCheckoutFailed` (no error) and folding that event
into the account leaves the state unchanged; on a `CheckedOut` account it
emits zero events; on `NotExisting` it fails with a domain rule
violation. -/
theorem checkOut_decision (now : DateTime) (s : GuestStayAccount) :
    ((∃ es, checkOut now s = .ok es ∧ ∃ d, GuestStayAccountEvent.GuestCheckedOut d ∈ es) ↔
      ∃ g r t, s = .Opened g r t 0) ∧
    (∀ g r t b, s = .Opened g r t b → b ≠ 0 →
      checkOut now s = .ok [.GuestCheckoutFailed ⟨"balance not settled"⟩] ∧
        evolveAccount s (.GuestCheckoutFailed ⟨"balance not settled"⟩) = s) ∧
    (∀ g r t b co, s = .CheckedOut g r t b co → checkOut now s = .ok []) ∧
    (s = .NotExisting → ∃ msg, checkOut now s = .error msg) := by
  cases s with
  | NotExisting =>
    refine ⟨⟨?_, ?_⟩, ?_, ?_, fun _ => ⟨_, rfl⟩⟩
    · rintro ⟨es, hes, -⟩; cases hes
    · rintro ⟨g, r, t, h⟩; cases h
    · rintro g r t b h; cases h
    · rintro g r t b co h; cases h
  | Opened g r t b =>
    by_cases hb : b = 0
    · subst hb
      refine ⟨⟨fun _ => ⟨g, r, t, rfl⟩, fun _ => ?_⟩, ?_, ?_, ?_⟩
      · exact ⟨[.GuestCheckedOut ⟨now⟩], by simp [checkOut], ⟨now⟩, by simp⟩
      · rintro g' r' t' b' h hb'
        cases h
        exact absurd rfl hb'
      · rintro g' r' t' b' co h; cases h
      · rintro h; cases h
    · refine ⟨⟨?_, ?_⟩, ?_, ?_, ?_⟩
      · rintro ⟨es, hes, d, hmem⟩
        rw [show checkOut now (.Opened g r t b) =
            .ok [.GuestCheckoutFailed ⟨"balance not settled"⟩] by
          simp [checkOut, hb]] at hes
        cases hes
        simp at hmem
      · rintro ⟨g', r', t', h⟩
        cases h
        exact absurd rfl hb
      · rintro g' r' t' b' h hb'
        cases h
        exact ⟨by simp [checkOut, hb], rfl⟩
      · rintro g' r' t' b' co h; cases h
      · rintro h; cases h
  | CheckedOut g r t b co =>
    refine ⟨⟨?_, ?_⟩, ?_, fun g' r' t' b' co' h => ?_, ?_⟩
    · rintro ⟨es, hes, d, hmem⟩
      cases hes
      simp at hmem
    · rintro ⟨g', r', t', h⟩; cases h
    · rintro g' r' t' b' h; cases h
    · cases h; rfl
    · rintro h; cases h

/-- Witness for claim C1 at concrete accounts: a settled `Opened` account
checks out, an unsettled one yields the failure event and an unchanged
state. -/
theorem checkOut_decision_witness :
    (∃ es, checkOut ⟨2025, 1, 3, 0⟩ (.Opened "guest-1" "room-1" ⟨2025, 1, 2, 0⟩ 0) = .ok es ∧
      ∃ d, GuestStayAccountEvent.GuestCheckedOut d ∈ es) ∧
    (checkOut ⟨2025, 1, 3, 0⟩ (.Opened "guest-1" "room-1" ⟨2025, 1, 2, 0⟩ (-50)) =
        .ok [.GuestCheckoutFailed ⟨"balance not settled"⟩] ∧
      evolveAccount (.Opened "guest-1" "room-1" ⟨2025, 1, 2, 0⟩ (-50))
          (.GuestCheckoutFailed ⟨"balance not settled"⟩) =
        .Opened "guest-1" "room-1" ⟨2025, 1, 2, 0⟩ (-50)) :=
  ⟨(checkOut_decision ⟨2025, 1, 3, 0⟩ _).1.mpr ⟨"guest-1", "room-1", ⟨2025, 1, 2, 0⟩, rfl⟩,
    (checkOut_decision ⟨2025, 1, 3, 0⟩ _).2.1 "guest-1" "room-1" ⟨2025, 1, 2, 0⟩ (-50) rfl
      (by norm_num)⟩

/-- Claim C4: the check-out endpoint answers no-content success when the
decision emitted no events or the first emitted event is not
`GuestCheckoutFailed`, and answers `Forbidden` whose problem detail is the
`GuestCheckoutFailed` event's reason exactly when the first emitted event
is `GuestCheckoutFailed`. -/
theorem checkOut_response_spec (evs : List GuestStayAccountEvent) :
    (checkOutHttpResponse evs = .noContent ↔
      ∀ d rest, evs ≠ GuestStayAccountEvent.GuestCheckoutFailed d :: rest) ∧
    (∀ d rest, evs = GuestStayAccountEvent.GuestCheckoutFailed d :: rest →
      checkOutHttpResponse evs = .forbidden d.reason) := by
  cases evs with
  | nil => exact ⟨by simp [checkOutHttpResponse], by simp⟩
  | cons e rest =>
    cases e with
    | GuestCheckoutFailed d =>
      constructor
      · constructor
        · intro h; cases h
        · intro h; exact absurd rfl (h d rest)
      · rintro d' rest' h
        rw [List.cons.injEq] at h
        obtain ⟨h1, -⟩ := h
        cases h1
        rfl
    | GuestCheckedIn d => exact ⟨by simp [checkOutHttpResponse], by simp⟩
    | ChargeRecorded d => exact ⟨by simp [checkOutHttpResponse], by simp⟩
    | PaymentRecorded d => exact ⟨by simp [checkOutHttpResponse], by simp⟩
    | GuestCheckedOut d => exact ⟨by simp [checkOutHttpResponse], by simp⟩

/-- Witness for claim C4: a decision starting with `GuestCheckoutFailed`
maps to `Forbidden` with the event's reason. -/
theorem checkOut_response_spec_witness :
    checkOutHttpResponse [.GuestCheckoutFailed ⟨"balance not settled"⟩] =
      .forbidden (GuestCheckoutFailedData.mk "balance not settled").reason :=
  (checkOut_response_spec [.GuestCheckoutFailed ⟨"balance not settled"⟩]).2
    ⟨"balance not settled"⟩ [] rfl

/-- Claim C3: the stay-detail query answers not-found exactly when the
projected document is absent or its status is not `CheckedIn` (a
checked-out account's stored document is reported not-found); otherwise it
answers success whose body is the document with `_version` removed and
whose entity tag is the weak ETag of `_version`.  The route is a function
of the projected document alone — the event log is never replayed. -/
theorem details_route_spec (result : Option GuestStayDetails) :
    (getDetailsRoute result = .notFound ↔
      result = none ∨ ∃ s, result = some s ∧ statusOf s ≠ "CheckedIn") ∧
    (∀ doc : GuestStayDoc, result = some (.existing doc) → doc.status = .CheckedIn →
      getDetailsRoute result = .ok (stripVersion doc) (toWeakETag doc._version)) := by
  cases result with
  | none =>
    refine ⟨⟨fun _ => Or.inl rfl, fun _ => rfl⟩, ?_⟩
    rintro doc h; cases h
  | some s =>
    cases s with
    | notExisting =>
      refine ⟨⟨fun _ => Or.inr ⟨.notExisting, rfl, by decide⟩, fun _ => rfl⟩, ?_⟩
      rintro doc h; cases h
    | existing doc =>
      cases hst : doc.status with
      | CheckedIn =>
        constructor
        · constructor
          · intro h
            rw [show getDetailsRoute (some (.existing doc)) =
                .ok (stripVersion doc) (toWeakETag doc._version) by
              simp [getDetailsRoute, hst]] at h
            cases h
          · rintro (h | ⟨s', hs', hne⟩)
            · cases h
            · rw [Option.some.injEq] at hs'
              subst hs'
              exact absurd (by simp [statusOf, hst]) hne
        · intro doc' h _
          rw [Option.some.injEq, GuestStayDetails.existing.injEq] at h
          subst h
          simp [getDetailsRoute, hst]
      | CheckedOut =>
        constructor
        · exact ⟨fun _ => Or.inr ⟨.existing doc, rfl, by simp [statusOf, hst]⟩,
            fun _ => by simp [getDetailsRoute, hst]⟩
        · intro doc' h hci
          rw [Option.some.injEq, GuestStayDetails.existing.injEq] at h
          subst h
          rw [hst] at hci
          cases hci

/-- Witness for claim C3 at a concrete stored document with status
`CheckedIn`: the route answers success with the version-stripped body and
the weak ETag of version 3. -/
theorem details_route_spec_witness :
    getDetailsRoute (some (.existing
        ⟨"acc-1", "guest-1", "room-1", .CheckedIn, 0, 0, [], ⟨2025, 1, 2, 0⟩, none, some 3⟩)) =
      .ok (stripVersion
          ⟨"acc-1", "guest-1", "room-1", .CheckedIn, 0, 0, [], ⟨2025, 1, 2, 0⟩, none, some 3⟩)
        (toWeakETag (some 3)) :=
  (details_route_spec (some (.existing
      ⟨"acc-1", "guest-1", "room-1", .CheckedIn, 0, 0, [], ⟨2025, 1, 2, 0⟩, none, some 3⟩))).2
    _ rfl rfl

/-- Inversion of the positive-amount assertion: a passed value is a
positive finite number and is returned unchanged. -/
lemma assertPositiveNumber_some {v : JSNumber} {q : Rat}
    (h : assertPositiveNumber v = some q) : 0 < q ∧ v = .finite q := by
  cases v with
  | finite q' =>
    rw [assertPositiveNumber] at h
    split at h
    · rw [Option.some.injEq] at h
      subst h
      exact ⟨by assumption, rfl⟩
    · cases h
  | nan => cases h
  | posInf => cases h
  | negInf => cases h

/-- Claim C8: on the record-charge and record-payment routes the body
amount must pass `assertPositiveNumber (Number (request.body.amount))`
before the command is built and handed to the command handler: when the
assertion fails the route rejects (`none`) without invoking the handler,
and every command that does reach the handler — hence `decide` — carries a
positive amount that was a finite number in the request body. -/
theorem amount_validation_spec (p : PathParams) (body : Option JSNumber) (gid : String) :
    (assertPositiveNumber (toNumber body) = none →
      recordChargeRoute p body gid = none ∧ recordPaymentRoute p body gid = none) ∧
    (∀ cmd : RecordChargeCmd, recordChargeRoute p body gid = some cmd →
      0 < cmd.amount ∧ toNumber body = .finite cmd.amount) ∧
    (∀ cmd : RecordPaymentCmd, recordPaymentRoute p body gid = some cmd →
      0 < cmd.amount ∧ toNumber body = .finite cmd.amount) := by
  cases hid : parseGuestStayAccountId p with
  | none =>
    refine ⟨fun _ => ⟨?_, ?_⟩, ?_, ?_⟩
    · simp [recordChargeRoute, hid]
    · simp [recordPaymentRoute, hid]
    · intro cmd h
      rw [recordChargeRoute, hid] at h
      cases h
    · intro cmd h
      rw [recordPaymentRoute, hid] at h
      cases h
  | some accountId =>
    cases ha : assertPositiveNumber (toNumber body) with
    | none =>
      refine ⟨fun _ => ⟨?_, ?_⟩, ?_, ?_⟩
      · simp [recordChargeRoute, hid, ha]
      · simp [recordPaymentRoute, hid, ha]
      · intro cmd h
        rw [recordChargeRoute, hid] at h
        simp [ha] at h
      · intro cmd h
        rw [recordPaymentRoute, hid] at h
        simp [ha] at h
    | some q =>
      obtain ⟨hq, hv⟩ := assertPositiveNumber_some ha
      refine ⟨fun hcon => ?_, ?_, ?_⟩
      · cases hcon
      · intro cmd h
        rw [recordChargeRoute, hid] at h
        simp [ha] at h
        subst h
        exact ⟨hq, hv⟩
      · intro cmd h
        rw [recordPaymentRoute, hid] at h
        simp [ha] at h
        subst h
        exact ⟨hq, hv⟩

/-- Witness for claim C8: a concrete charge request with amount 50 passes
validation and the command built for `decide` carries the positive finite
amount 50. -/
theorem amount_validation_spec_witness :
    0 < (RecordChargeCmd.mk "charge-1" "guest_stay_account-g:r:20250102" 50).amount ∧
      toNumber (some (.finite 50)) =
        .finite (RecordChargeCmd.mk "charge-1" "guest_stay_account-g:r:20250102" 50).amount :=
  (amount_validation_spec ⟨some "g", some "r", some "20250102"⟩ (some (.finite 50))
    "charge-1").2.1 ⟨"charge-1", "guest_stay_account-g:r:20250102", 50⟩ (by decide)

/-- Claim C10: when `doesGuestStayExist` answers false, the check-in route
returns `Forbidden` and never invokes the command handler — the
`handlerCall` component is `none`, so no `CheckIn` command is constructed,
no event is appended and no read-model document is created. -/
theorem checkin_forbidden_no_handler (guestId roomId : String) (now : DateTime)
    (hg : guestId ≠ "") (hr : roomId ≠ "") :
    checkInRoute (some guestId) (some roomId) false now =
      some ⟨.forbidden, none⟩ := by
  simp [checkInRoute, assertNotEmptyString, hg, hr]

/-- Witness for claim C10 at concrete parameters. -/
theorem checkin_forbidden_no_handler_witness :
    checkInRoute (some "guest-1") (some "room-1") false ⟨2025, 1, 2, 0⟩ =
      some ⟨.forbidden, none⟩ :=
  checkin_forbidden_no_handler "guest-1" "room-1" ⟨2025, 1, 2, 0⟩ (by decide) (by decide)

/-- The retry loop surfaces the conflict failure iff every attempted cycle
(there are exactly `fuel` of them, starting at index `i`) hit a
concurrency conflict. -/
lemma retryLoop_error_iff {α : Type} (cycle : Nat → CycleOutcome α) :
    ∀ fuel i, retryLoop cycle i fuel = .error .concurrencyConflict ↔
      ∀ j < fuel, cycle (i + j) = .conflict := by
  intro fuel
  induction fuel with
  | zero => intro i; simp [retryLoop]
  | succ n ih =>
    intro i
    rw [retryLoop]
    cases hc : cycle i with
    | committed r =>
      constructor
      · intro h; cases h
      · intro h
        have := h 0 (Nat.succ_pos n)
        rw [Nat.add_zero, hc] at this
        cases this
    | conflict =>
      rw [ih (i + 1)]
      constructor
      · intro h j hj
        cases j with
        | zero => rw [Nat.add_zero]; exact hc
        | succ j' =>
          have := h j' (by omega)
          rw [show i + 1 + j' = i + (j' + 1) by omega] at this
          exact this
      · intro h j hj
        have := h (j + 1) (by omega)
        rw [show i + (j + 1) = i + 1 + j by omega] at this
        exact this

/-- The retry loop only ever consults the outcomes of the `fuel` cycles it
may run, i.e. indices `i`, …, `i + fuel − 1`. -/
lemma retryLoop_congr {α : Type} (cycle cycle2 : Nat → CycleOutcome α) :
    ∀ fuel i, (∀ j < fuel, cycle (i + j) = cycle2 (i + j)) →
      retryLoop cycle i fuel = retryLoop cycle2 i fuel := by
  intro fuel
  induction fuel with
  | zero => intro i _; rfl
  | succ n ih =>
    intro i h
    rw [retryLoop, retryLoop]
    have h0 := h 0 (Nat.succ_pos n)
    rw [Nat.add_zero] at h0
    rw [← h0]
    cases hc : cycle i with
    | committed r => rfl
    | conflict =>
      exact ih (i + 1) fun j hj => by
        have := h (j + 1) (by omega)
        rw [show i + (j + 1) = i + 1 + j by omega] at this
        exact this

/-- Claim C9: the command handler retries the whole load-decide-append
cycle at most `maxAttempts` times — its result depends only on the first
`maxAttempts` cycle outcomes, so it never retries unboundedly — and it
surfaces the distinct concurrency-conflict failure to the caller exactly
when every one of those attempts was rejected by the optimistic-concurrency
check. -/
theorem handle_bounded_retry {α : Type} (maxAttempts : Nat)
    (cycle : Nat → CycleOutcome α) :
    (handleCommand maxAttempts cycle = .error .concurrencyConflict ↔
      ∀ i < maxAttempts, cycle i = .conflict) ∧
    (∀ cycle2 : Nat → CycleOutcome α, (∀ i < maxAttempts, cycle i = cycle2 i) →
      handleCommand maxAttempts cycle = handleCommand maxAttempts cycle2) := by
  constructor
  · rw [handleCommand, retryLoop_error_iff]
    constructor
    · intro h i hi
      have := h i hi
      rw [Nat.zero_add] at this
      exact this
    · intro h j hj
      rw [Nat.zero_add]
      exact h j hj
  · intro cycle2 h
    rw [handleCommand, handleCommand]
    exact retryLoop_congr cycle cycle2 maxAttempts 0 fun j hj => by
      rw [Nat.zero_add]
      exact h j hj

/-- Witness for claim C9: with three attempts all hitting conflicts, the
handler surfaces the concurrency-conflict failure. -/
theorem handle_bounded_retry_witness :
    handleCommand 3 (fun _ => (CycleOutcome.conflict : CycleOutcome Nat)) =
      .error .concurrencyConflict :=
  (handle_bounded_retry 3 (fun _ => (CycleOutcome.conflict : CycleOutcome Nat))).1.mpr
    fun _ _ => rfl

/-- The fixed-width digit expansion has exactly the requested width. -/
lemma padDigits_length : ∀ (len n : Nat), (padDigits len n).length = len := by
  intro len
  induction len with
  | zero => intro n; rfl
  | succ l ih => intro n; simp [padDigits, ih]

/-- Digit characters are digits. -/
lemma digitChar_isDigit (d : Nat) (h : d < 10) : (Nat.digitChar d).isDigit = true := by
  interval_cases d <;> decide

/-- The code of a digit character, shifted back, is the digit. -/
lemma digitChar_toNat_sub (d : Nat) (h : d < 10) : (Nat.digitChar d).toNat - 48 = d := by
  interval_cases d <;> decide

/-- Reading digits distributes over list append. -/
lemma readDigits_append : ∀ (xs ys : List Char) (acc : Nat),
    readDigits (xs ++ ys) acc = (readDigits xs acc).bind fun a => readDigits ys a := by
  intro xs
  induction xs with
  | nil => intro ys acc; simp [readDigits]
  | cons c cs ih =>
    intro ys acc
    simp only [List.cons_append, readDigits]
    by_cases h : c.isDigit = true
    · simp only [h, if_true, List.append_eq, ih]
    · simp [h]

/-- Reading back a fixed-width digit expansion recovers the number. -/
lemma readDigits_padDigits : ∀ (len n acc : Nat), n < 10 ^ len →
    readDigits (padDigits len n) acc = some (acc * 10 ^ len + n) := by
  intro len
  induction len with
  | zero =>
    intro n acc h
    rw [pow_zero] at h
    have hn : n = 0 := by omega
    subst hn
    simp [padDigits, readDigits]
  | succ l ih =>
    intro n acc h
    rw [padDigits, readDigits_append]
    have hdiv : n / 10 < 10 ^ l := by
      rw [Nat.div_lt_iff_lt_mul (by norm_num : 0 < 10)]
      calc n < 10 ^ (l + 1) := h
        _ = 10 ^ l * 10 := by rw [pow_succ]
    rw [ih (n / 10) acc hdiv, Option.some_bind]
    have hmod : n % 10 < 10 := Nat.mod_lt _ (by norm_num)
    simp only [readDigits, digitChar_isDigit _ hmod, if_true,
      digitChar_toNat_sub _ hmod]
    congr 1
    calc (acc * 10 ^ l + n / 10) * 10 + n % 10
        = acc * (10 ^ l * 10) + (10 * (n / 10) + n % 10) := by ring
      _ = acc * 10 ^ (l + 1) + n := by rw [Nat.div_add_mod, pow_succ]

/-- Parsing the YYYYMMDD encoding of an instant recovers its calendar day,
at UTC midnight. -/
lemma parse_format (d : DateTime) (hy : d.year < 10000) (hm : d.month < 100)
    (hd : d.day < 100) :
    parseDateFromUtcYYYYMMDD (formatDateToUtcYYYYMMDD d) =
      some ⟨d.year, d.month, d.day, 0⟩ := by
  have hA : (padDigits 4 d.year).length = 4 := padDigits_length 4 _
  have hB : (padDigits 2 d.month).length = 2 := padDigits_length 2 _
  have hAB : (padDigits 4 d.year ++ padDigits 2 d.month).length = 6 := by
    rw [List.length_append, hA, hB]
  have hdata : (formatDateToUtcYYYYMMDD d).data =
      padDigits 4 d.year ++ padDigits 2 d.month ++ padDigits 2 d.day := rfl
  have e1 : (padDigits 4 d.year ++ padDigits 2 d.month ++ padDigits 2 d.day).take 4 =
      padDigits 4 d.year := by
    rw [List.append_assoc]
    exact List.take_left' hA
  have e2 : (padDigits 4 d.year ++ padDigits 2 d.month ++ padDigits 2 d.day).drop 4 =
      padDigits 2 d.month ++ padDigits 2 d.day := by
    rw [List.append_assoc]
    exact List.drop_left' hA
  have e3 : ((padDigits 4 d.year ++ padDigits 2 d.month ++ padDigits 2 d.day).drop 4).take 2 =
      padDigits 2 d.month := by
    rw [e2]
    exact List.take_left' hB
  have e4 : (padDigits 4 d.year ++ padDigits 2 d.month ++ padDigits 2 d.day).drop 6 =
      padDigits 2 d.day := List.drop_left' hAB
  have r1 : readDigits (padDigits 4 d.year) 0 = some d.year := by
    rw [readDigits_padDigits 4 d.year 0 (by norm_num; exact hy)]
    norm_num
  have r2 : readDigits (padDigits 2 d.month) 0 = some d.month := by
    rw [readDigits_padDigits 2 d.month 0 (by norm_num; exact hm)]
    norm_num
  have r3 : readDigits (padDigits 2 d.day) 0 = some d.day := by
    rw [readDigits_padDigits 2 d.day 0 (by norm_num; exact hd)]
    norm_num
  rw [parseDateFromUtcYYYYMMDD, hdata, e1, e3, e4, r1, r2, r3,
    if_pos (by simp [padDigits_length])]

/-- Claim C7: the account id the check-in route computes from
(guestId, roomId, now) equals the id `parseGuestStayAccountId` computes
from path parameters whose check-in date is
`formatDateToUtcYYYYMMDD now` — the day encoding round-trips at day
granularity — so later requests carrying the check-in day address the same
account, and two check-ins for the same guest, room and calendar day
address the same account whatever their time of day. -/
theorem account_id_day_roundtrip (g r : String) (now : DateTime)
    (hg : g ≠ "") (hr : r ≠ "") (hy : now.year < 10000) (hm : now.month < 100)
    (hd : now.day < 100) :
    parseGuestStayAccountId ⟨some g, some r, some (formatDateToUtcYYYYMMDD now)⟩ =
      some (toGuestStayAccountId g r now) ∧
    ∀ t t' : Nat,
      toGuestStayAccountId g r ⟨now.year, now.month, now.day, t⟩ =
        toGuestStayAccountId g r ⟨now.year, now.month, now.day, t'⟩ := by
  constructor
  · have h1 : assertNotEmptyString (some g) = some g := by
      rw [assertNotEmptyString, if_neg hg]
    have h2 : assertNotEmptyString (some r) = some r := by
      rw [assertNotEmptyString, if_neg hr]
    have hne : formatDateToUtcYYYYMMDD now ≠ "" := by
      intro hc
      have hlen : (formatDateToUtcYYYYMMDD now).data.length = 8 := by
        simp [formatDateToUtcYYYYMMDD, padDigits_length]
      rw [hc] at hlen
      cases hlen
    have h3 : assertNotEmptyString (some (formatDateToUtcYYYYMMDD now)) =
        some (formatDateToUtcYYYYMMDD now) := by
      rw [assertNotEmptyString, if_neg hne]
    have hparse := parse_format now hy hm hd
    simp only [parseGuestStayAccountId, h1, h2, h3, hparse, Option.pure_def,
      Option.bind_eq_bind, Option.some_bind]
    rfl
  · intro t t'
    rfl

/-- Witness for claim C7 at concrete guest, room and timestamp. -/
theorem account_id_day_roundtrip_witness :
    parseGuestStayAccountId
        ⟨some "guest-1", some "room-1",
          some (formatDateToUtcYYYYMMDD ⟨2025, 1, 2, 777⟩)⟩ =
      some (toGuestStayAccountId "guest-1" "room-1" ⟨2025, 1, 2, 777⟩) :=
  (account_id_day_roundtrip "guest-1" "room-1" ⟨2025, 1, 2, 777⟩ (by decide) (by decide)
    (by norm_num) (by norm_num) (by norm_num)).1

end GuestStay
